import Mathlib

/-!
Verification development for the open-search-service frontend.

The repository under study is the web client of a document ingestion and
retrieval service.  The relevant source files are the ingest form
(src/unnamed/part_001 and the IngestPage of src/frontend/components/navigation.tsx),
the search page (src/unnamed/part_002, src/frontend/src/components/SearchPage.jsx and
src/frontend/components/search-page.tsx), and the settings page
(src/frontend/src/components/SettingsPage.jsx and src/frontend/components/settings-page.tsx).

Stateful React components are embedded as explicit state records.  An event
handler is a function from the state snapshot it closed over (the values of
the render that created it) together with the relevant server responses to
the new component state and the list of HTTP requests it issues.  State
setters act on the evolving state; local reads inside a handler read the
closed-over snapshot, exactly as a JavaScript closure does.
-/

namespace OSS

/-! ### JSON values and the embedding of the JavaScript builtin JSON.parse

The ingest form validates its metadata field with a bare JSON.parse call.
The grammar below follows the JSON standard as implemented by JSON.parse:
optional minus sign, integer part with no leading zeros, optional fraction
and exponent; strings with the standard escapes; arrays, objects, true,
false and null; whitespace is space, tab, newline, carriage return.
Numbers keep their integer part as an integer and the fraction or exponent
lexeme as text, which the claims never compute with. -/

inductive Json where
  | null
  | bool (b : Bool)
  | num (intPart : Int) (tail : String)
  | str (s : String)
  | arr (elems : List Json)
  | obj (fields : List (String × Json))

def isJsonWs : Char → Bool
  | ' ' => true
  | '\t' => true
  | '\n' => true
  | '\r' => true
  | _ => false

def skipWs (cs : List Char) : List Char :=
  cs.dropWhile isJsonWs

def stripLit : List Char → List Char → Option (List Char)
  | [], cs => some cs
  | _ :: _, [] => none
  | l :: ls, c :: cs => if c = l then stripLit ls cs else none

def isDigitCh (c : Char) : Bool :=
  48 ≤ c.toNat && c.toNat ≤ 57

/-- Split a character list at the end of its leading run of decimal digits. -/
def spanDigits (cs : List Char) : List Char × List Char :=
  match cs with
  | [] => ([], [])
  | c :: rest =>
    if isDigitCh c then
      match spanDigits rest with
      | (ds, after) => (c :: ds, after)
    else ([], cs)

def digitsToNatAux (a : Nat) : List Char → Nat
  | [] => a
  | d :: ds => digitsToNatAux (a * 10 + (d.toNat - 48)) ds

def digitsToNat (ds : List Char) : Nat :=
  digitsToNatAux 0 ds

/-- The integer part of a JSON number: a lone zero, or a nonzero digit
followed by any digits (leading zeros are a parse error for JSON.parse). -/
def parseIntPart : List Char → Option (List Char × List Char)
  | [] => none
  | c :: cs =>
    if c = '0' then some ([c], cs)
    else if isDigitCh c then
      match spanDigits cs with
      | (ds, after) => some (c :: ds, after)
    else none

/-- The optional fraction of a JSON number: a dot demands at least one digit;
with no dot the fraction lexeme is empty. -/
def parseFrac : List Char → Option (List Char × List Char)
  | '.' :: cs =>
    (match spanDigits cs with
     | ([], _) => none
     | (ds, after) => some ('.' :: ds, after))
  | cs => some ([], cs)

/-- The optional exponent of a JSON number: e or E, an optional sign, then at
least one digit; with no e the exponent lexeme is empty. -/
def parseExp : List Char → Option (List Char × List Char)
  | [] => some ([], [])
  | c :: cs =>
    if c = 'e' || c = 'E' then
      match cs with
      | [] => none
      | s :: cs2 =>
        if s = '+' || s = '-' then
          match spanDigits cs2 with
          | ([], _) => none
          | (ds, after) => some (c :: s :: ds, after)
        else
          match spanDigits (s :: cs2) with
          | ([], _) => none
          | (ds, after) => some (c :: ds, after)
    else some ([], c :: cs)

def parseNumAfterSign (neg : Bool) (cs1 : List Char) : Option (Json × List Char) :=
  match parseIntPart cs1 with
  | none => none
  | some (ds, cs2) =>
    match parseFrac cs2 with
    | none => none
    | some (fr, cs3) =>
      match parseExp cs3 with
      | none => none
      | some (ex, cs4) =>
        let n : Int := Int.ofNat (digitsToNat ds)
        some (.num (if neg then -n else n) (String.mk (fr ++ ex)), cs4)

def parseNumber : List Char → Option (Json × List Char)
  | '-' :: rest => parseNumAfterSign true rest
  | cs => parseNumAfterSign false cs

/-- Value of a hexadecimal digit, when the character is one. -/
def hexVal (c : Char) : Option Nat :=
  let n := c.toNat
  if 48 ≤ n ∧ n ≤ 57 then some (n - 48)
  else if 97 ≤ n ∧ n ≤ 102 then some (n - 87)
  else if 65 ≤ n ∧ n ≤ 70 then some (n - 55)
  else none

/-- Body of a JSON string after the opening quote: consumes characters up to
the closing quote, decoding the standard escapes. -/
def parseStrChars : Nat → List Char → Option (List Char × List Char)
  | 0, _ => none
  | _ + 1, [] => none
  | fuel + 1, c :: cs =>
    if c = '\"' then some ([], cs)
    else if c = '\\' then
      match cs with
      | [] => none
      | e :: cs2 =>
        if e = 'u' then
          match cs2 with
          | h1 :: h2 :: h3 :: h4 :: cs3 =>
            match hexVal h1, hexVal h2, hexVal h3, hexVal h4 with
            | some a, some b, some c3, some d =>
              (match parseStrChars fuel cs3 with
               | some (out, rest) =>
                 some (Char.ofNat (4096 * a + 256 * b + 16 * c3 + d) :: out, rest)
               | none => none)
            | _, _, _, _ => none
          | _ => none
        else
          let dec : Option Char :=
            if e = '\"' then some '\"'
            else if e = '\\' then some '\\'
            else if e = '/' then some '/'
            else if e = 'b' then some (Char.ofNat 8)
            else if e = 'f' then some (Char.ofNat 12)
            else if e = 'n' then some '\n'
            else if e = 'r' then some '\r'
            else if e = 't' then some '\t'
            else none
          match dec with
          | none => none
          | some d =>
            match parseStrChars fuel cs2 with
            | some (out, rest) => some (d :: out, rest)
            | none => none
    else if c.toNat < 32 then none
    else
      match parseStrChars fuel cs with
      | some (out, rest) => some (c :: out, rest)
      | none => none

def parseStringTok : Nat → List Char → Option (String × List Char)
  | _, [] => none
  | fuel, c :: cs =>
    if c = '\"' then
      match parseStrChars fuel cs with
      | some (out, rest) => some (String.mk out, rest)
      | none => none
    else none

mutual

def parseValue : Nat → List Char → Option (Json × List Char)
  | 0, _ => none
  | fuel + 1, cs =>
    match skipWs cs with
    | [] => none
    | c :: cs1 =>
      if c = 'n' then
        match stripLit ['u', 'l', 'l'] cs1 with
        | some rest => some (.null, rest)
        | none => none
      else if c = 't' then
        match stripLit ['r', 'u', 'e'] cs1 with
        | some rest => some (.bool true, rest)
        | none => none
      else if c = 'f' then
        match stripLit ['a', 'l', 's', 'e'] cs1 with
        | some rest => some (.bool false, rest)
        | none => none
      else if c = '\"' then
        match parseStrChars fuel cs1 with
        | some (out, rest) => some (.str (String.mk out), rest)
        | none => none
      else if c = '[' then
        match skipWs cs1 with
        | ']' :: rest => some (.arr [], rest)
        | cs2 =>
          match parseElems fuel cs2 with
          | some (xs, rest) => some (.arr xs, rest)
          | none => none
      else if c = '\x7b' then
        match skipWs cs1 with
        | '\x7d' :: rest => some (.obj [], rest)
        | cs2 =>
          match parseFields fuel cs2 with
          | some (kvs, rest) => some (.obj kvs, rest)
          | none => none
      else if c = '-' || isDigitCh c then
        parseNumber (c :: cs1)
      else none

def parseElems : Nat → List Char → Option (List Json × List Char)
  | 0, _ => none
  | fuel + 1, cs =>
    match parseValue fuel cs with
    | none => none
    | some (v, rest) =>
      match skipWs rest with
      | ',' :: rest2 =>
        (match parseElems fuel rest2 with
         | some (xs, rest3) => some (v :: xs, rest3)
         | none => none)
      | ']' :: rest2 => some ([v], rest2)
      | _ => none

def parseFields : Nat → List Char → Option (List (String × Json) × List Char)
  | 0, _ => none
  | fuel + 1, cs =>
    match parseStringTok fuel (skipWs cs) with
    | none => none
    | some (k, rest) =>
      match skipWs rest with
      | ':' :: rest2 =>
        (match parseValue fuel rest2 with
         | none => none
         | some (v, rest3) =>
           match skipWs rest3 with
           | ',' :: rest4 =>
             (match parseFields fuel rest4 with
              | some (kvs, rest5) => some ((k, v) :: kvs, rest5)
              | none => none)
           | '\x7d' :: rest4 => some ([(k, v)], rest4)
           | _ => none)
      | _ => none

end

/-- The JavaScript builtin JSON.parse as called by the ingest form: parse one
JSON value, allowing surrounding whitespace, and fail on trailing input.
The fuel bounds the recursion depth and is generous for any input. -/
def Json.parse (s : String) : Option Json :=
  match parseValue (2 * s.length + 2) s.data with
  | some (v, rest) => if skipWs rest = [] then some v else none
  | none => none

def Json.isObj : Json → Bool
  | .obj _ => true
  | _ => false

/-- The JavaScript builtin String.prototype.trim as used by the validation
guards: strip whitespace from both ends of the string. -/
def jsTrim (s : String) : String :=
  String.mk (((s.data.dropWhile Char.isWhitespace).reverse.dropWhile Char.isWhitespace).reverse)

/-! ### The ingest form (src/unnamed/part_001, IngestPage)

The component state is the tuple of useState hooks.  A file input value is
modelled by the file name.  The success and error banners are the message
and error strings. -/

structure IngestForm where
  docId : String
  title : String
  text : String
  file : Option String
  metadata : String
  sync : Bool
  loading : Bool
  message : String
  error : String
  deriving Repr, DecidableEq

/-- The initial useState values of IngestPage. -/
def initialIngestForm : IngestForm :=
  { docId := "", title := "", text := "", file := none, metadata := "",
    sync := false, loading := false, message := "", error := "" }

/-- An entry of the multipart form body: a plain string field or the
uploaded file. -/
inductive FormValue where
  | str (s : String)
  | fileRef (name : String)
  deriving Repr, DecidableEq

/-- JavaScript Boolean.toString, used for the sync flag. -/
def boolStr (b : Bool) : String :=
  if b then "true" else "false"

/-- The FormData built by handleSubmit once validation has passed: doc_id and
sync always; title, text, file and metadata only when present (text and
title when non-empty, exactly as JavaScript truthiness tests them; metadata
when non-empty and parseable, since a parse failure aborts before the
append). -/
def ingestFormData (st : IngestForm) : List (String × FormValue) :=
  [("doc_id", FormValue.str st.docId), ("sync", FormValue.str (boolStr st.sync))]
    ++ (if st.title = "" then [] else [("title", FormValue.str st.title)])
    ++ (if st.text = "" then [] else [("text", FormValue.str st.text)])
    ++ (match st.file with
        | some f => [("file", FormValue.fileRef f)]
        | none => [])
    ++ (if st.metadata = "" then []
        else
          match Json.parse st.metadata with
          | some _ => [("metadata", FormValue.str st.metadata)]
          | none => [])

/-- Outcome of the validation phase of handleSubmit: either a validation
error shown to the user with no HTTP request issued, or the POST /ingest
request with its multipart body. -/
inductive SubmitOutcome where
  | rejected (error : String)
  | request (formData : List (String × FormValue))
  deriving Repr, DecidableEq

def SubmitOutcome.isRequest : SubmitOutcome → Bool
  | .request _ => true
  | .rejected _ => false

/-- The validation phase of handleSubmit in part_001: a blank document id and
the absence of both text and file each stop the submission with an error;
a non-empty metadata field that JSON.parse rejects stops it with the
invalid-JSON error; otherwise the ingest request is issued with the built
form data. -/
def handleSubmit (st : IngestForm) : SubmitOutcome :=
  if jsTrim st.docId = "" then .rejected "Document ID is required"
  else if st.text = "" ∧ st.file = none then
    .rejected "Either text content or a file must be provided"
  else if st.metadata = "" then .request (ingestFormData st)
  else
    match Json.parse st.metadata with
    | none => .rejected "Invalid JSON in metadata"
    | some _ => .request (ingestFormData st)

/-- The interactions that mutate the ingest form state: the controlled
inputs (which the component disables while loading, and the text area also
while a file is selected), the file picker, the loading flag, and the
clear-form action performed after a successful or abandoned submission. -/
inductive FormEvent where
  | setDocId (s : String)
  | setTitle (s : String)
  | typeText (s : String)
  | selectFile (f : Option String)
  | setMetadata (s : String)
  | setSync (b : Bool)
  | setLoading (b : Bool)
  | clearForm
  deriving Repr, DecidableEq

/-- One step of the ingest form state machine.  A change event on a disabled
control is a no-op (the doc id, title, metadata, sync and file inputs are
disabled while loading; the text area is disabled while loading or while a
file is selected).  Selecting a file stores it and clears the text;
a change event with no file selected leaves the state unchanged. -/
def formStep (st : IngestForm) : FormEvent → IngestForm
  | .setDocId s => if st.loading then st else { st with docId := s }
  | .setTitle s => if st.loading then st else { st with title := s }
  | .typeText s => if st.loading ∨ st.file ≠ none then st else { st with text := s }
  | .selectFile f =>
      if st.loading then st
      else
        match f with
        | some name => { st with file := some name, text := "" }
        | none => st
  | .setMetadata s => if st.loading then st else { st with metadata := s }
  | .setSync b => if st.loading then st else { st with sync := b }
  | .setLoading b => { st with loading := b }
  | .clearForm =>
      { st with docId := "", title := "", text := "", file := none, metadata := "" }

def runForm (es : List FormEvent) : IngestForm :=
  es.foldl formStep initialIngestForm

def keysOf (body : List (String × FormValue)) : List String :=
  body.map Prod.fst

/-! ### The completion-polling loop of asynchronous ingestion (part_001)

After an accepted asynchronous ingestion the component polls
GET /docs/doc_id.  A response trace is a function from the zero-based
attempt index to the response of that attempt. -/

/-- One response of GET /docs/doc_id. -/
inductive DocResp where
  | ok (chunk_count : Nat)
  | notFound
  | httpError (status : Nat)
  | netError
  deriving Repr, DecidableEq

/-- pollForCompletion in part_001: an ok response reports the chunk count and
returns true; a 404 returns false (still pending); any other status throws,
is caught, and returns false, as does a network error. -/
def pollOnce : DocResp → Option Nat
  | .ok n => some n
  | .notFound => none
  | .httpError _ => none
  | .netError => none

/-- What the polling loop did: how many attempts it made, the chunk count it
reported on success (none if it gave up), and whether it cleared the form
when it stopped. -/
structure PollResult where
  attemptsUsed : Nat
  reported : Option Nat
  formCleared : Bool
  deriving Repr, DecidableEq

/-- maxAttempts in part_001. -/
def maxAttempts : Nat := 10

/-- pollInterval in part_001, in milliseconds. -/
def pollIntervalMs : Nat := 1000

/-- The recursive poll function of part_001: increment attempts, poll once;
on completion or once attempts reach maxAttempts clear the form and stop,
otherwise schedule the next attempt.  The fuel only bounds the recursion
for Lean; runPoll supplies maxAttempts of it, which the stopping condition
never exhausts, so the fuel-out branch is unreachable from runPoll. -/
def pollGo (responses : Nat → DocResp) (maxA : Nat) : Nat → Nat → PollResult
  | 0, attempts => { attemptsUsed := attempts, reported := none, formCleared := false }
  | fuel + 1, attempts =>
    match pollOnce (responses attempts) with
    | some n => { attemptsUsed := attempts + 1, reported := some n, formCleared := true }
    | none =>
      if maxA ≤ attempts + 1 then
        { attemptsUsed := attempts + 1, reported := none, formCleared := true }
      else pollGo responses maxA fuel (attempts + 1)

/-- The polling loop as started by handleSubmit in the asynchronous branch:
attempts start at zero and are capped at maxAttempts. -/
def runPoll (responses : Nat → DocResp) : PollResult :=
  pollGo responses maxAttempts maxAttempts 0

/-! ### The search page (src/unnamed/part_002; pagination from search-page.tsx)

Scores and search times are numeric JSON values; the claims never compute
with them, so they enter the model at integer precision. -/

/-- The SearchResult interface of part_002. -/
structure SearchResult where
  chunk_id : String
  doc_id : String
  title : Option String
  score : Int
  text_snippet : String
  metadata : Option (List (String × Json))

/-- The SearchResponse interface declared in search-page.tsx. -/
structure SearchResponseBody where
  query : String
  results : List SearchResult
  total_count : Nat
  offset : Nat
  limit : Nat
  search_time_ms : Nat

/-- The useState hooks of the SearchPage component in part_002. -/
structure SearchClientState where
  query : String
  results : List SearchResult
  loading : Bool
  searchTime : Nat
  hybrid : Bool
  rerank : Bool
  topK : Nat
  hasSearched : Bool

/-- The search section of the GET /config response. -/
structure RemoteSearchConfig where
  top_k : Nat
  reranker_enabled : Bool
  deriving Repr, DecidableEq

/-- Outcome of the GET /config fetch inside loadConfig. -/
inductive ConfigResp where
  | ok (search : RemoteSearchConfig)
  | failed

/-- Outcome of the POST /search fetch. -/
inductive FetchResp where
  | ok (results : List SearchResult) (search_time_ms : Nat)
  | httpError (statusText : String)
  | netError

/-- An HTTP request issued by the search page. -/
inductive ClientRequest where
  | getConfig
  | search (body : List (String × Json))

/-- The JSON body of the POST /search request in part_002 and SearchPage.jsx:
exactly the four fields q, top_k, hybrid, rerank. -/
def searchRequestBody (q : String) (topK : Nat) (hybrid rerank : Bool) :
    List (String × Json) :=
  [("q", Json.str q), ("top_k", Json.num (Int.ofNat topK) ""),
   ("hybrid", Json.bool hybrid), ("rerank", Json.bool rerank)]

/-- The JSON body built by performSearch in search-page.tsx for a given page:
q, top_k, offset, limit, hybrid, rerank, with offset computed from the page
number and page size. -/
def paginatedSearchBody (q : String) (topK page pageSize : Nat) (hybrid rerank : Bool) :
    List (String × Json) :=
  [("q", Json.str q), ("top_k", Json.num (Int.ofNat topK) ""),
   ("offset", Json.num (Int.ofNat ((page - 1) * pageSize)) ""),
   ("limit", Json.num (Int.ofNat pageSize) ""),
   ("hybrid", Json.bool hybrid), ("rerank", Json.bool rerank)]

def bodyKeys (body : List (String × Json)) : List String :=
  body.map Prod.fst

/-- The state updates performed by loadConfig in part_002: on a successful
GET /config it stores search.top_k and search.reranker_enabled via setTopK
and setRerank; on failure it only warns. -/
def loadConfigState (resp : ConfigResp) (st : SearchClientState) : SearchClientState :=
  match resp with
  | .ok c => { st with topK := c.top_k, rerank := c.reranker_enabled }
  | .failed => st

/-- handleSearch in part_002.  The snap argument is the state the handler
closed over (the values of the render that created it).  A blank query
returns before any state update or request.  Otherwise the handler sets
loading, clears the results, awaits loadConfig — whose setTopK and
setRerank act on the evolving component state — and then issues the
POST /search fetch.  Its body reads the local consts query, topK, hybrid
and rerank of the closure, which the state setters inside loadConfig do
not change, so the body carries the snapshot values.  The result is the
state after the handler finishes together with the requests it issued, in
order. -/
def handleSearch (snap : SearchClientState) (cfgResp : ConfigResp) (resp : FetchResp) :
    SearchClientState × List ClientRequest :=
  if jsTrim snap.query = "" then (snap, [])
  else
    let st1 := { snap with loading := true, results := [], hasSearched := true }
    let st2 := loadConfigState cfgResp st1
    let body := searchRequestBody snap.query snap.topK snap.hybrid snap.rerank
    let st3 :=
      match resp with
      | .ok rs t => { st2 with results := rs, searchTime := t }
      | .httpError _ => st2
      | .netError => st2
    ({ st3 with loading := false }, [ClientRequest.getConfig, ClientRequest.search body])

/-! ### The settings page (src/frontend/src/components/SettingsPage.jsx) -/

structure DatabaseConfig where
  url : String
  pool_size : Nat
  max_overflow : Nat
  deriving Repr, DecidableEq

structure VectorConfig where
  backend : String
  faiss_index_path : String
  faiss_m : Nat
  faiss_ef_construction : Nat
  faiss_ef_search : Nat
  deriving Repr, DecidableEq

structure EmbeddingConfig where
  provider : String
  model : String
  dimension : Nat
  openai_api_key : Option String
  deriving Repr, DecidableEq

structure SearchConfig where
  chunk_tokens : Nat
  top_k : Nat
  reranker_enabled : Bool
  reranker_model : String
  deriving Repr, DecidableEq

/-- The configuration record exchanged with GET /config and POST /config. -/
structure ConfigRecord where
  database : DatabaseConfig
  vector : VectorConfig
  embedding : EmbeddingConfig
  search : SearchConfig
  deriving Repr, DecidableEq

/-- The verdict of POST /config/validate-db. -/
structure DbValidation where
  valid : Bool
  message : String
  deriving Repr, DecidableEq

/-- The useState hooks of the SettingsPage component. -/
structure SettingsState where
  config : Option ConfigRecord
  dbUrl : String
  dbPoolSize : Nat
  dbMaxOverflow : Nat
  vectorBackend : String
  faissIndexPath : String
  faissM : Nat
  faissEfConstruction : Nat
  faissEfSearch : Nat
  embeddingProvider : String
  embeddingModel : String
  embeddingDimension : Nat
  openaiApiKey : String
  chunkTokens : Nat
  topK : Nat
  rerankerEnabled : Bool
  rerankerModel : String
  dbValidation : Option DbValidation
  validatingDb : Bool
  saving : Bool
  message : String
  error : String
  deriving Repr, DecidableEq

/-- The configuration-carrying part of the settings state: the stored config
object and every form field that mirrors a configuration value.  It
excludes only the transient flags and banners (dbValidation, validatingDb,
saving, message, error). -/
def configStateView (st : SettingsState) :=
  (st.config, st.dbUrl, st.dbPoolSize, st.dbMaxOverflow, st.vectorBackend,
   st.faissIndexPath, st.faissM, st.faissEfConstruction, st.faissEfSearch,
   st.embeddingProvider, st.embeddingModel, st.embeddingDimension,
   st.openaiApiKey, st.chunkTokens, st.topK, st.rerankerEnabled, st.rerankerModel)

/-- Outcome of the POST /config/validate-db fetch: the parsed verdict, a
non-ok status (which throws Validation failed), or a network error whose
message is shown. -/
inductive ValidateDbResp where
  | ok (result : DbValidation)
  | httpError
  | netError (msg : String)
  deriving Repr, DecidableEq

/-- An HTTP request issued by the settings page. -/
inductive SettingsRequest where
  | validateDb (db_url : String)
  | postConfig (updates : ConfigRecord)
  deriving Repr, DecidableEq

/-- validateDatabase in SettingsPage.jsx.  A blank URL sets a local failure
verdict and issues no request.  Otherwise the request carries the db_url
and the verdict state is set from the response; validatingDb is set for
the duration of the call and reset in the finally block, so it is false in
the final state. -/
def validateDatabase (st : SettingsState) (resp : ValidateDbResp) :
    SettingsState × List SettingsRequest :=
  if jsTrim st.dbUrl = "" then
    ({ st with dbValidation := some { valid := false, message := "Database URL is required" } }, [])
  else
    let verdict : DbValidation :=
      match resp with
      | .ok r => r
      | .httpError => { valid := false, message := "Validation failed" }
      | .netError msg => { valid := false, message := msg }
    ({ st with dbValidation := some verdict, validatingDb := false },
     [SettingsRequest.validateDb st.dbUrl])

/-- Modelled from the spec: the backend handler of POST /config/validate-db,
the endpoint called validate_db_connection(url) in the interface list, is
not under src/ (only its caller is).  Per the spec it returns a
valid/message verdict without mutating any stored configuration; the
verdict function abstracts the connection test itself. -/
def serverValidateDb (stored : ConfigRecord) (verdict : String → DbValidation)
    (url : String) : ConfigRecord × DbValidation :=
  (stored, verdict url)

/-- The updates object built by saveConfig from the form fields. -/
def configUpdates (st : SettingsState) : ConfigRecord :=
  { database := { url := st.dbUrl, pool_size := st.dbPoolSize, max_overflow := st.dbMaxOverflow }
    vector :=
      { backend := st.vectorBackend, faiss_index_path := st.faissIndexPath,
        faiss_m := st.faissM, faiss_ef_construction := st.faissEfConstruction,
        faiss_ef_search := st.faissEfSearch }
    embedding :=
      { provider := st.embeddingProvider, model := st.embeddingModel,
        dimension := st.embeddingDimension,
        openai_api_key := if st.openaiApiKey = "" then none else some st.openaiApiKey }
    search :=
      { chunk_tokens := st.chunkTokens, top_k := st.topK,
        reranker_enabled := st.rerankerEnabled, reranker_model := st.rerankerModel } }

/-- Outcome of the POST /config fetch in saveConfig. -/
inductive SaveResp where
  | ok (newConfig : ConfigRecord)
  | failed (msg : String)
  deriving Repr, DecidableEq

/-- The confirmation message saveConfig shows after a successful save. -/
def savedBlanketMessage : String :=
  "Configuration saved successfully! Restart the service to apply changes."

/-- saveConfig in SettingsPage.jsx: POST the updates built from the form
fields; on success store the returned config and show the confirmation
message; on failure show the error; saving is reset in the finally
block. -/
def saveConfig (st : SettingsState) (resp : SaveResp) :
    SettingsState × List SettingsRequest :=
  match resp with
  | .ok nc =>
    ({ st with saving := false, error := "", config := some nc, message := savedBlanketMessage },
     [SettingsRequest.postConfig (configUpdates st)])
  | .failed msg =>
    ({ st with saving := false, message := "", error := msg },
     [SettingsRequest.postConfig (configUpdates st)])

/-! ### Concrete states and traces used by the counterexamples and witnesses -/

/-- An ingest form whose metadata is valid JSON but not a JSON object. -/
def metadataArrayForm : IngestForm :=
  { initialIngestForm with docId := "doc1", text := "hello", metadata := "[1, 2]" }

/-- An ingest form whose metadata is not valid JSON. -/
def badMetadataForm : IngestForm :=
  { initialIngestForm with docId := "d", text := "t", metadata := "]" }

/-- An ingest form carrying both text content and a file. -/
def bothContentForm : IngestForm :=
  { initialIngestForm with docId := "d", text := "hello", file := some "notes.txt" }

/-- A response trace in which the document endpoint first succeeds at the
eleventh attempt (index 10): every attempt the loop actually makes sees a
404. -/
def lateResponses : Nat → DocResp :=
  fun i => if i < 10 then DocResp.notFound else DocResp.ok 3

/-- A search page state whose render saw topK 5 and rerank off. -/
def c1Snapshot : SearchClientState :=
  { query := "fox", results := [], loading := false, searchTime := 0,
    hybrid := true, rerank := false, topK := 5, hasSearched := false }

/-- A search page state about to issue a plain search. -/
def c5Snapshot : SearchClientState :=
  { query := "fox", results := [], loading := false, searchTime := 0,
    hybrid := true, rerank := true, topK := 5, hasSearched := false }

/-- A search page state whose query is whitespace only. -/
def wsQueryState : SearchClientState :=
  { query := "   ", results := [], loading := false, searchTime := 0,
    hybrid := true, rerank := true, topK := 5, hasSearched := false }

/-- A settings page state with the default configuration loaded into the
form fields. -/
def settingsBase : SettingsState :=
  { config := none, dbUrl := "postgresql://db", dbPoolSize := 10, dbMaxOverflow := 20,
    vectorBackend := "faiss", faissIndexPath := "/data/faiss", faissM := 32,
    faissEfConstruction := 200, faissEfSearch := 64, embeddingProvider := "local",
    embeddingModel := "all-mpnet-base-v2", embeddingDimension := 768, openaiApiKey := "",
    chunkTokens := 512, topK := 5, rerankerEnabled := false,
    rerankerModel := "cross-encoder/ms-marco-MiniLM-L-6-v2", dbValidation := none,
    validatingDb := false, saving := false, message := "", error := "" }

/-- settingsBase with only the search top_k changed (a field the search page
re-reads before every search, hence live-reloadable per the spec). -/
def settingsLiveFieldChange : SettingsState :=
  { settingsBase with topK := 9 }

/-- settingsBase with only the database URL changed (a connection setting,
hence restart-required per the spec). -/
def settingsRestartFieldChange : SettingsState :=
  { settingsBase with dbUrl := "postgresql://other" }

/-! ### Helper lemmas about the polling loop -/

/-- Along the recursion of pollGo the attempt counter stays below the cap and
whenever the loop stops it has cleared the form. -/
theorem pollGo_bounds (responses : Nat → DocResp) (maxA : Nat) :
    ∀ fuel attempts, attempts < maxA → maxA ≤ attempts + fuel →
      (pollGo responses maxA fuel attempts).attemptsUsed ≤ maxA ∧
      (pollGo responses maxA fuel attempts).formCleared = true := by
  intro fuel
  induction fuel with
  | zero => intro attempts h1 h2; omega
  | succ f ih =>
    intro attempts h1 h2
    cases h : pollOnce (responses attempts) with
    | some n => simp [pollGo, h]; omega
    | none =>
      by_cases hc : maxA ≤ attempts + 1
      · simp [pollGo, h, hc]; omega
      · simp only [pollGo, h, if_neg hc]
        exact ih (attempts + 1) (by omega) (by omega)

/-- The loop never polls past a success: every attempt strictly before the
last one it made came back unsuccessful. -/
theorem pollGo_before_none (responses : Nat → DocResp) (maxA : Nat) :
    ∀ fuel attempts i, attempts ≤ i →
      i + 1 < (pollGo responses maxA fuel attempts).attemptsUsed →
      pollOnce (responses i) = none := by
  intro fuel
  induction fuel with
  | zero => intro attempts i hle hlt; simp [pollGo] at hlt; omega
  | succ f ih =>
    intro attempts i hle hlt
    cases h : pollOnce (responses attempts) with
    | some n => simp [pollGo, h] at hlt; omega
    | none =>
      by_cases hc : maxA ≤ attempts + 1
      · simp [pollGo, h, hc] at hlt; omega
      · simp only [pollGo, h, if_neg hc] at hlt
        rcases Nat.eq_or_lt_of_le hle with heq | hlt2
        · subst heq; exact h
        · exact ih (attempts + 1) i (by omega) hlt

/-- If the first successful attempt is the one of index k, below the cap,
the loop stops right there reporting its chunk count. -/
theorem pollGo_first_success (responses : Nat → DocResp) (maxA : Nat) :
    ∀ fuel attempts k n, attempts ≤ k → k < maxA → maxA ≤ attempts + fuel →
      (∀ i, attempts ≤ i → i < k → pollOnce (responses i) = none) →
      pollOnce (responses k) = some n →
      pollGo responses maxA fuel attempts =
        { attemptsUsed := k + 1, reported := some n, formCleared := true } := by
  intro fuel
  induction fuel with
  | zero => intro attempts k n h1 h2 h3 h4 h5; omega
  | succ f ih =>
    intro attempts k n h1 h2 h3 h4 h5
    rcases Nat.eq_or_lt_of_le h1 with heq | hlt
    · subst heq
      simp [pollGo, h5]
    · have hnone : pollOnce (responses attempts) = none := h4 attempts le_rfl hlt
      have hc : ¬ maxA ≤ attempts + 1 := by omega
      simp only [pollGo, hnone, if_neg hc]
      exact ih (attempts + 1) k n (by omega) h2 (by omega)
        (fun i hi1 hi2 => h4 i (by omega) hi2) h5

/-! ### Helper lemmas about the ingest form -/

/-- One step of the form state machine preserves the exclusion of text and
file: the only event that makes the file non-empty also clears the text,
and the text area cannot change while a file is selected. -/
theorem formStep_inv (st : IngestForm) (e : FormEvent)
    (h : st.file ≠ none → st.text = "") :
    (formStep st e).file ≠ none → (formStep st e).text = "" := by
  cases e with
  | setDocId s => by_cases hl : st.loading = true <;> simp [formStep, hl] <;> exact h
  | setTitle s => by_cases hl : st.loading = true <;> simp [formStep, hl] <;> exact h
  | typeText s =>
    by_cases hg : st.loading = true ∨ st.file ≠ none
    · simp [formStep, hg]; exact h
    · push_neg at hg
      simp [formStep, hg.1, hg.2]
  | selectFile f =>
    by_cases hl : st.loading = true
    · simp [formStep, hl]; exact h
    · cases f with
      | some name => simp [formStep, hl]
      | none => simp [formStep, hl]; exact h
  | setMetadata s => by_cases hl : st.loading = true <;> simp [formStep, hl] <;> exact h
  | setSync b => by_cases hl : st.loading = true <;> simp [formStep, hl] <;> exact h
  | setLoading b => simp [formStep]; exact h
  | clearForm => simp [formStep]

/-- The exclusion invariant holds in every state the form can reach. -/
theorem runForm_inv (es : List FormEvent) :
    (runForm es).file ≠ none → (runForm es).text = "" := by
  suffices hgen : ∀ st : IngestForm, (st.file ≠ none → st.text = "") →
      ((es.foldl formStep st).file ≠ none → (es.foldl formStep st).text = "") by
    exact hgen initialIngestForm (fun hf => absurd rfl hf)
  induction es with
  | nil => intro st h; exact h
  | cons e es ih => intro st h; exact ih (formStep st e) (formStep_inv st e h)

/-- When the text is empty no text entry is appended to the form data. -/
theorem text_key_not_mem (st : IngestForm) (h : st.text = "") :
    "text" ∉ keysOf (ingestFormData st) := by
  cases hf : st.file <;>
    by_cases h1 : st.title = "" <;>
      by_cases h2 : st.metadata = "" <;>
        cases hJ : Json.parse st.metadata <;>
          simp [keysOf, ingestFormData, h, hf, h1, h2, hJ]

/-- When no file is selected no file entry is appended to the form data. -/
theorem file_key_not_mem (st : IngestForm) (h : st.file = none) :
    "file" ∉ keysOf (ingestFormData st) := by
  by_cases h1 : st.title = "" <;>
    by_cases h2 : st.text = "" <;>
      by_cases h3 : st.metadata = "" <;>
        cases hJ : Json.parse st.metadata <;>
          simp [keysOf, ingestFormData, h, h1, h2, h3, hJ]

/-- Under the exclusion invariant the form data never carries a text entry
and a file entry together. -/
theorem no_text_with_file (st : IngestForm) (h : st.file ≠ none → st.text = "") :
    ¬("text" ∈ keysOf (ingestFormData st) ∧ "file" ∈ keysOf (ingestFormData st)) := by
  rintro ⟨ht, hfk⟩
  cases hf : st.file with
  | none => exact file_key_not_mem st hf hfk
  | some f => exact text_key_not_mem st (h (by simp [hf])) ht

/-! ### The claims -/

/-- Claim C1 (the code contradicts it): before a search the handler does
re-read the search settings from GET /config, but the request issued
immediately afterwards carries the values of the render snapshot, not the
freshly re-read ones.  At a snapshot with topK 5 and rerank off, and a
config response with top_k 7 and reranker enabled, the issued body says
top_k 5 and rerank false even though the component state right after the
handler holds 7 and true: the reload only takes effect for the next
search. -/
theorem search_request_uses_stale_reloaded_settings :
    (handleSearch c1Snapshot (ConfigResp.ok { top_k := 7, reranker_enabled := true })
        (FetchResp.ok [] 12)).2 =
      [ClientRequest.getConfig,
       ClientRequest.search (searchRequestBody "fox" 5 true false)] ∧
    (handleSearch c1Snapshot (ConfigResp.ok { top_k := 7, reranker_enabled := true })
        (FetchResp.ok [] 12)).1.topK = 7 ∧
    (handleSearch c1Snapshot (ConfigResp.ok { top_k := 7, reranker_enabled := true })
        (FetchResp.ok [] 12)).1.rerank = true :=
  ⟨rfl, rfl, rfl⟩

/-- Claim C2, counterexample: a metadata field holding a JSON array — valid
JSON, not a JSON object — is accepted and the ingest request is issued, so
the call does not proceed only on JSON objects. -/
theorem metadata_nonobject_json_accepted :
    (Json.parse metadataArrayForm.metadata).map Json.isObj = some false ∧
    (handleSubmit metadataArrayForm).isRequest = true := by
  decide

/-- Claim C2 (amended): for a submission that passes the doc id and content
checks and has a non-empty metadata field, the call proceeds exactly when
the metadata parses as JSON (any JSON value, not only an object);
otherwise it fails with the invalid-JSON error and no ingest request is
issued. -/
theorem metadata_json_parse_guard (st : IngestForm)
    (hdoc : jsTrim st.docId ≠ "") (hcontent : ¬(st.text = "" ∧ st.file = none))
    (hmeta : st.metadata ≠ "") :
    (Json.parse st.metadata = none →
      handleSubmit st = SubmitOutcome.rejected "Invalid JSON in metadata") ∧
    (Json.parse st.metadata ≠ none →
      handleSubmit st = SubmitOutcome.request (ingestFormData st)) := by
  unfold handleSubmit
  rw [if_neg hdoc, if_neg hcontent, if_neg hmeta]
  constructor
  · intro hp; rw [hp]
  · intro hp
    cases hJ : Json.parse st.metadata with
    | none => exact absurd hJ hp
    | some v => rfl

theorem metadata_json_parse_guard_witness :
    handleSubmit badMetadataForm = SubmitOutcome.rejected "Invalid JSON in metadata" :=
  (metadata_json_parse_guard badMetadataForm (by decide) (by decide) (by decide)).1 rfl

/-- Claim C3, counterexample: a submission carrying both text content and a
file is not rejected — the ingest request is issued and its form data
contains both a text and a file entry. -/
theorem both_text_and_file_not_rejected :
    (handleSubmit bothContentForm).isRequest = true ∧
    "text" ∈ keysOf (ingestFormData bothContentForm) ∧
    "file" ∈ keysOf (ingestFormData bothContentForm) := by
  decide

/-- Claim C3 (amended): an ingest submission requires a doc id and at least
one of text and file — a blank doc id, or neither text nor file, is
rejected with the respective validation error before any ingest request is
issued; the exclusivity of text and file is not checked here (it is
maintained by the form state instead). -/
theorem ingest_requires_docid_and_content (st : IngestForm) :
    (jsTrim st.docId = "" →
      handleSubmit st = SubmitOutcome.rejected "Document ID is required") ∧
    (jsTrim st.docId ≠ "" → st.text = "" → st.file = none →
      handleSubmit st = SubmitOutcome.rejected "Either text content or a file must be provided") := by
  constructor
  · intro h; unfold handleSubmit; rw [if_pos h]
  · intro h1 h2 h3; unfold handleSubmit; rw [if_neg h1, if_pos ⟨h2, h3⟩]

theorem ingest_requires_docid_and_content_witness :
    handleSubmit { initialIngestForm with docId := "   " } =
      SubmitOutcome.rejected "Document ID is required" ∧
    handleSubmit { initialIngestForm with docId := "d" } =
      SubmitOutcome.rejected "Either text content or a file must be provided" :=
  ⟨(ingest_requires_docid_and_content { initialIngestForm with docId := "   " }).1 (by decide),
   (ingest_requires_docid_and_content { initialIngestForm with docId := "d" }).2 (by decide) rfl rfl⟩

/-- Claim C4, counterexample: with a document that completes only at the
eleventh attempt the endpoint does return success eventually, but the loop
has already stopped after its ten attempts and never reports the chunk
count. -/
theorem late_completion_never_reported :
    pollOnce (lateResponses 10) = some 3 ∧
    (runPoll lateResponses).attemptsUsed = 10 ∧
    (runPoll lateResponses).reported = none := by
  decide

/-- Claim C4 (amended): if the document endpoint first returns success at
attempt index k within the ten-attempt budget, the polling loop reports
that chunk count at attempt k+1 and stops; earlier unsuccessful responses
— a 404 in particular — only keep it polling, they are never treated as
failure. -/
theorem poll_reports_completion_within_budget (responses : Nat → DocResp) (k n : Nat)
    (hk : k < maxAttempts) (hbefore : ∀ i, i < k → pollOnce (responses i) = none)
    (hok : pollOnce (responses k) = some n) :
    runPoll responses =
      { attemptsUsed := k + 1, reported := some n, formCleared := true } ∧
    pollOnce DocResp.notFound = none := by
  refine ⟨?_, rfl⟩
  exact pollGo_first_success responses maxAttempts maxAttempts 0 k n (Nat.zero_le k) hk
    (by omega) (fun i _ hi => hbefore i hi) hok

theorem poll_reports_completion_within_budget_witness :
    runPoll (fun _ => DocResp.ok 7) =
      { attemptsUsed := 1, reported := some 7, formCleared := true } ∧
    pollOnce DocResp.notFound = none :=
  poll_reports_completion_within_budget (fun _ => DocResp.ok 7) 0 7 (by decide)
    (fun i hi => absurd hi (Nat.not_lt_zero i)) rfl

/-- Claim C5, counterexample: the search request issued by the part_002
client carries exactly q, top_k, hybrid and rerank — neither an offset nor
a limit. -/
theorem search_body_lacks_offset_and_limit :
    (handleSearch c5Snapshot ConfigResp.failed (FetchResp.ok [] 3)).2 =
      [ClientRequest.getConfig,
       ClientRequest.search (searchRequestBody "fox" 5 true true)] ∧
    "offset" ∉ bodyKeys (searchRequestBody "fox" 5 true true) ∧
    "limit" ∉ bodyKeys (searchRequestBody "fox" 5 true true) := by
  refine ⟨rfl, by decide, by decide⟩

/-- Claim C5 (amended): the paginated client of search-page.tsx sends
q, top_k, offset, limit, hybrid and rerank, while the clients of part_002
and SearchPage.jsx send only q, top_k, hybrid and rerank. -/
theorem search_request_body_keys (q : String) (topK page pageSize : Nat)
    (hybrid rerank : Bool) :
    bodyKeys (searchRequestBody q topK hybrid rerank) = ["q", "top_k", "hybrid", "rerank"] ∧
    bodyKeys (paginatedSearchBody q topK page pageSize hybrid rerank) =
      ["q", "top_k", "offset", "limit", "hybrid", "rerank"] :=
  ⟨rfl, rfl⟩

/-- Claim C6: validating a database URL yields a valid/message verdict and
mutates no stored configuration — the stored record on the server side
(modelled from the spec) is returned unchanged, and on the client side
every configuration-carrying piece of the settings state is identical
before and after the call. -/
theorem validate_db_preserves_configuration (st : SettingsState) (resp : ValidateDbResp)
    (stored : ConfigRecord) (verdict : String → DbValidation) (url : String) :
    configStateView (validateDatabase st resp).1 = configStateView st ∧
    (serverValidateDb stored verdict url).1 = stored := by
  refine ⟨?_, rfl⟩
  unfold validateDatabase
  split
  · rfl
  · rfl

/-- Claim C7, counterexample: changing only the live search top_k and
changing only the database URL are different updates, yet a successful
save shows the caller the identical blanket confirmation, which moreover
tells them to restart the service — nothing distinguishes live-applying
fields from restart-required ones. -/
theorem save_confirmation_is_blanket :
    configUpdates settingsLiveFieldChange ≠ configUpdates settingsRestartFieldChange ∧
    (saveConfig settingsLiveFieldChange
        (SaveResp.ok (configUpdates settingsLiveFieldChange))).1.message =
      (saveConfig settingsRestartFieldChange
        (SaveResp.ok (configUpdates settingsRestartFieldChange))).1.message ∧
    (saveConfig settingsLiveFieldChange
        (SaveResp.ok (configUpdates settingsLiveFieldChange))).1.message =
      savedBlanketMessage :=
  ⟨by decide, rfl, rfl⟩

/-- Claim C7 (amended): after a successful update_config the caller receives
one blanket confirmation, constant across all updates, advising a restart
for every change; the confirmation does not say which changed fields apply
live and which require a restart. -/
theorem save_confirmation_constant_message (st : SettingsState) (nc : ConfigRecord) :
    (saveConfig st (SaveResp.ok nc)).1.message = savedBlanketMessage :=
  rfl

/-- Claim C8: in every state the ingest form can reach, a selected file
implies the text is empty — selecting a file clears the text and the text
area is disabled while a file is selected — and hence the form data of a
submission never carries a text entry together with a file entry. -/
theorem file_selection_excludes_text (es : List FormEvent) :
    ((runForm es).file ≠ none → (runForm es).text = "") ∧
    ¬("text" ∈ keysOf (ingestFormData (runForm es)) ∧
      "file" ∈ keysOf (ingestFormData (runForm es))) :=
  ⟨runForm_inv es, no_text_with_file _ (runForm_inv es)⟩

theorem file_selection_excludes_text_witness :
    (runForm [FormEvent.typeText "hi", FormEvent.selectFile (some "a.txt")]).text = "" ∧
    ¬("text" ∈ keysOf (ingestFormData (runForm
        [FormEvent.typeText "hi", FormEvent.selectFile (some "a.txt")])) ∧
      "file" ∈ keysOf (ingestFormData (runForm
        [FormEvent.typeText "hi", FormEvent.selectFile (some "a.txt")]))) :=
  ⟨(file_selection_excludes_text
      [FormEvent.typeText "hi", FormEvent.selectFile (some "a.txt")]).1 (by decide),
   (file_selection_excludes_text
      [FormEvent.typeText "hi", FormEvent.selectFile (some "a.txt")]).2⟩

/-- Claim C9: for every response trace the polling loop makes at most ten
attempts at one-second intervals, never polls past a success, and clears
the form when it stops. -/
theorem poll_loop_terminates_and_clears (responses : Nat → DocResp) :
    (runPoll responses).attemptsUsed ≤ maxAttempts ∧
    (runPoll responses).formCleared = true ∧
    (∀ i, i + 1 < (runPoll responses).attemptsUsed → pollOnce (responses i) = none) ∧
    pollIntervalMs = 1000 := by
  refine ⟨?_, ?_, ?_, rfl⟩
  · exact (pollGo_bounds responses maxAttempts maxAttempts 0 (by decide) (by omega)).1
  · exact (pollGo_bounds responses maxAttempts maxAttempts 0 (by decide) (by omega)).2
  · intro i hi
    exact pollGo_before_none responses maxAttempts maxAttempts 0 i (Nat.zero_le i) hi

theorem poll_loop_terminates_and_clears_witness :
    (runPoll lateResponses).attemptsUsed ≤ maxAttempts ∧
    (runPoll lateResponses).formCleared = true ∧
    pollIntervalMs = 1000 :=
  ⟨(poll_loop_terminates_and_clears lateResponses).1,
   (poll_loop_terminates_and_clears lateResponses).2.1,
   (poll_loop_terminates_and_clears lateResponses).2.2.2⟩

/-- Claim C10: submitting the search form with a blank (empty or whitespace
only) query is a no-op — the handler returns before any state update, so
results, loading flag and search time are unchanged, and it issues no HTTP
request at all. -/
theorem blank_query_search_is_noop (snap : SearchClientState)
    (cfgResp : ConfigResp) (resp : FetchResp) (h : jsTrim snap.query = "") :
    handleSearch snap cfgResp resp = (snap, []) := by
  unfold handleSearch
  rw [if_pos h]

theorem blank_query_search_is_noop_witness :
    handleSearch wsQueryState ConfigResp.failed FetchResp.netError = (wsQueryState, []) :=
  blank_query_search_is_noop wsQueryState ConfigResp.failed FetchResp.netError (by decide)

end OSS
